import Mathlib

/-!
Verification of `sunburnt/indexer.py` (pbs-education/sunburnt): the field
declaration metaclass, the document transformer `BaseIndexer.transform`, and
the reconciliation controller `BaseIndexer.update`.

Python values reachable by the transformer are embedded as the inductive
`PyVal`; machine-level details (ints are unbounded in Python, so `Int` is
exact) need no truncation.  `datetime` timestamps are embedded as `Int`
(only their ordering is ever used).  Fallible Python code (`AttributeError`,
the metaclass `Exception`s) is embedded with `Except`.
-/

set_option autoImplicit false

namespace Sunburnt

/-- Embedded Python values: `None`, integers, strings, attribute-bearing
objects (attribute name to value), and dicts (key to value, as returned by a
one-to-many resolver).  A zero-argument callable attribute returning `v` is
embedded as an attribute bound to `v`, since `get_attribute_or_callable`
immediately calls it (spec section 4.2 case 1). -/
inductive PyVal : Type where
  | pynone : PyVal
  | pyint : Int → PyVal
  | pystr : String → PyVal
  | pyobj : List (String × PyVal) → PyVal
  | pydict : List (String × PyVal) → PyVal

/-- `AttributeError`, carrying the message of the Python exception. -/
structure AttrError : Type where
  msg : String

/-! String primitives.  The library versions of `splitOn`, `replace`,
`startsWith` and `endsWith` are compiled by well-founded recursion and do
not reduce inside the kernel, so the embedding uses structurally recursive
character-list versions with the same semantics on the inputs the source
uses (`split('.')` with a one-character separator, `replace` with non-empty
patterns, prefix/suffix tests). -/

/-- `leadsWith pat cs`: `pat` is a prefix of `cs`. -/
def leadsWith : List Char → List Char → Bool
  | [], _ => true
  | _ :: _, [] => false
  | a :: as, b :: bs => a == b && leadsWith as bs

/-- `str.startswith(pat)`. -/
def strStartsWith (s pat : String) : Bool := leadsWith pat.data s.data

/-- `str.endswith(pat)`. -/
def strEndsWith (s pat : String) : Bool := leadsWith pat.data.reverse s.data.reverse

/-- `chars.split('.')` on character lists. -/
def charsSplitDot : List Char → List (List Char)
  | [] => [[]]
  | c :: cs =>
      match charsSplitDot cs with
      | [] => [[]]
      | seg :: rest => if c == '.' then [] :: seg :: rest else (c :: seg) :: rest

/-- `str.split('.')` as used on src line 84. -/
def splitOnDots (s : String) : List String :=
  (charsSplitDot s.data).map (fun cs => String.mk cs)

/-- Left-to-right non-overlapping replacement of `pat` by `repl`, with
explicit fuel (one unit per consumed character, so `cs.length` suffices;
`pat` is non-empty wherever the source calls `replace`). -/
def charsReplace (pat repl : List Char) : Nat → List Char → List Char
  | _, [] => []
  | 0, cs => cs
  | fuel + 1, c :: cs =>
      if pat ≠ [] && leadsWith pat (c :: cs) then
        repl ++ charsReplace pat repl fuel (List.drop pat.length (c :: cs))
      else
        c :: charsReplace pat repl fuel cs

/-- `str.replace(pat, repl)` as used on src line 73, and the `%`
substitution of src lines 74-75 (a template holding one `%s`). -/
def strReplace (s pat repl : String) : String :=
  String.mk (charsReplace pat.data repl.data s.data.length s.data)

/-- Modelled from the spec: `get_attribute_or_callable` is imported from
`schema.py` (src line 3), which is not among the provided sources.  Per the
spec (section 4.2 case 1) it looks a segment up "as either a plain attribute
or a zero-argument computed accessor on the current value", failing with a
missing-attribute error when the lookup finds nothing; the zero-argument
accessor case is folded into the attribute binding of `PyVal.pyobj`. -/
def get_attribute_or_callable (value : PyVal) (name : String) : Except AttrError PyVal :=
  match value with
  | PyVal.pyobj attrs =>
      match attrs.lookup name with
      | some v => Except.ok v
      | Option.none => Except.error ⟨name⟩
  | _ => Except.error ⟨name⟩

/-- The attribute-path traversal loop of `BaseIndexer.transform`
(src/sunburnt/indexer.py lines 83-88): starting from the record, for each
dotted segment first raise `AttributeError` if the current value is `None`,
otherwise look the segment up with `get_attribute_or_callable`. -/
def resolveSegs : PyVal → List String → Except AttrError PyVal
  | value, [] => Except.ok value
  | PyVal.pynone, name :: _ => Except.error ⟨name⟩
  | value, name :: rest =>
      match get_attribute_or_callable value name with
      | Except.ok v => resolveSegs v rest
      | Except.error e => Except.error e

/-- Python `dict.__setitem__` on an association list: overwrite the entry
in place when the key is present, append otherwise (keys stay unique; only
lookup and the entry multiset matter, CPython 2 dicts being unordered). -/
def dictInsert {α : Type} : List (String × α) → String → α → List (String × α)
  | [], k, v => [(k, v)]
  | (a, b) :: d, k, v => if a == k then (a, v) :: d else (a, b) :: dictInsert d k v

/-- A declared `Field` (src lines 7-11): the optional dotted attribute path
(source name `attribute`, a Lean keyword, hence `attributePath` here) and
the optional flag.  `solr_field` is bound at instance construction and
carried by `BoundField` below. -/
structure Field : Type where
  attributePath : Option String
  optional : Bool

/-- What `interface.schema.match_field` returns for one field name: the
dynamic flag and the `display_name` method (external schema collaborator,
spec section 6). -/
structure SolrFieldInfo : Type where
  dynamic : Bool
  display_name : String → String

/-- The external schema-matching collaborator (`interface.schema`). -/
structure Schema : Type where
  match_field : String → SolrFieldInfo

/-- A field after `BaseIndexer.__init__` bound it: the declared data plus
the `solr_field` shape obtained from the schema (src lines 59-60). -/
structure BoundField : Type where
  attributePath : Option String
  optional : Bool
  solr_dynamic : Bool
  solr_display_name : String → String

/-- `match_field` applied to one declared field (src line 60). -/
def bindField (schema : Schema) (name : String) (f : Field) : BoundField :=
  { attributePath := f.attributePath
    optional := f.optional
    solr_dynamic := (schema.match_field name).dynamic
    solr_display_name := (schema.match_field name).display_name }

/-- `Field()` with all defaults, as used for the two built-in fields
(src lines 55-56). -/
def defaultField : Field := { attributePath := Option.none, optional := false }

/-- The field set built by `BaseIndexer.__init__` before schema binding
(src lines 53-57): a copy of `base_fields` updated with the two built-in
descriptors.  `deepcopy` and `dict.update` translate to pure insertion, so
the type-level `base_fields` value is never mutated. -/
def initFieldDict (base_fields : List (String × Field)) : List (String × Field) :=
  dictInsert (dictInsert base_fields "solr_collection" defaultField)
    "solr_update_timestamp" defaultField

/-- The bound field set of `BaseIndexer.__init__` (src lines 53-60):
built-ins installed over the copied declarations, then every entry annotated
with its schema shape. -/
def initFields (schema : Schema) (base_fields : List (String × Field)) :
    List (String × BoundField) :=
  (initFieldDict base_fields).map (fun p => (p.1, bindField schema p.1 p.2))

/-- A bound indexer instance (`BaseIndexer.__init__`, src lines 48-62).
`solr_update_timestamp` is the watermark captured at construction
(src line 51).  `resolvers` stands for `getattr(self, name)` over the
transform methods a concrete subclass defines; the two methods inherited
from `BaseIndexer` (src lines 98-102) are supplied by `getResolver` below
when no subclass override exists. -/
structure Indexer : Type where
  collection : String
  documents : Nat
  solr_update_timestamp : Int
  fields : List (String × BoundField)
  resolvers : String → Option (PyVal → Except AttrError PyVal)

/-- `getattr(self, name)` for transform methods: a subclass-defined method
shadows the two defined on `BaseIndexer` (src lines 98-102);
`transform_solr_collection` returns `self._meta['collection']` and
`transform_solr_update_timestamp` returns `datetime.datetime.now()`, the
clock reading `now` at the moment of resolution. -/
def getResolver (idx : Indexer) (now : Int) (name : String) :
    Option (PyVal → Except AttrError PyVal) :=
  match idx.resolvers name with
  | some f => some f
  | Option.none =>
      if name == "transform_solr_collection" then
        some (fun _ => Except.ok (PyVal.pystr idx.collection))
      else if name == "transform_solr_update_timestamp" then
        some (fun _ => Except.ok (PyVal.pyint now))
      else
        Option.none

/-- `dict.items()` as used on the one-to-many resolver result
(src line 75): anything but a dict lacks `items` and raises
`AttributeError`. -/
def pyItems : PyVal → Except AttrError (List (String × PyVal))
  | PyVal.pydict entries => Except.ok entries
  | _ => Except.error ⟨"items"⟩

/-- The body of the `try:` block of `BaseIndexer.transform` for one field
(src lines 70-88), returning the `data` pairs to merge into the document:
* attribute path absent, dynamic, name ends in `_1_TO_X`: template the name,
  call the base-name resolver, expand the returned mapping one entry per
  sub-key (src lines 72-75);
* attribute path absent, dynamic, otherwise: call the resolver named after
  the schema display name (src lines 77-78);
* attribute path absent, not dynamic: call the resolver named after the
  field (src lines 80-81);
* attribute path present: traverse it with `resolveSegs` (src lines 83-88).
A missing resolver is `getattr` failing, i.e. `AttributeError`. -/
def transformField (idx : Indexer) (now : Int) (record : PyVal)
    (field_name : String) (field : BoundField) :
    Except AttrError (List (String × PyVal)) :=
  match field.attributePath with
  | some attr => do
      let value ← resolveSegs record (splitOnDots attr)
      Except.ok [(field_name, value)]
  | Option.none =>
      if field.solr_dynamic then
        if strEndsWith field_name "_1_TO_X" then
          let templated := strReplace field_name "_1_TO_X" "%s"
          match getResolver idx now ("transform_" ++ strReplace templated "%s" "") with
          | some f => do
              let value ← f record
              let items ← pyItems value
              Except.ok (items.map (fun p => (strReplace templated "%s" ("_" ++ p.1), p.2)))
          | Option.none => Except.error ⟨"transform_" ++ strReplace templated "%s" ""⟩
        else
          match getResolver idx now ("transform_" ++ field.solr_display_name field_name) with
          | some f => do
              let value ← f record
              Except.ok [(field_name, value)]
          | Option.none => Except.error ⟨"transform_" ++ field.solr_display_name field_name⟩
      else
        match getResolver idx now ("transform_" ++ field_name) with
        | some f => do
            let value ← f record
            Except.ok [(field_name, value)]
        | Option.none => Except.error ⟨"transform_" ++ field_name⟩

/-- The field loop of `BaseIndexer.transform` (src lines 67-95): resolve
each field; on `AttributeError` re-raise unless the field is optional
(src lines 89-91), otherwise merge the resolved pairs into the document
(src lines 92-95). -/
def runFields (idx : Indexer) (now : Int) (record : PyVal) :
    List (String × BoundField) → List (String × PyVal) →
    Except AttrError (List (String × PyVal))
  | [], document => Except.ok document
  | (field_name, field) :: rest, document =>
      match transformField idx now record field_name field with
      | Except.error e =>
          if field.optional then
            runFields idx now record rest document
          else
            Except.error e
      | Except.ok data =>
          runFields idx now record rest
            (data.foldl (fun d p => dictInsert d p.1 p.2) document)

/-- `BaseIndexer.transform` (src lines 64-96).  `now` is the wall-clock
reading at which this call resolves `solr_update_timestamp` (the source
reads `datetime.datetime.now()` at that moment, src line 102). -/
def transform (idx : Indexer) (now : Int) (record : PyVal) :
    Except AttrError (List (String × PyVal)) :=
  runFields idx now record idx.fields []

/-- `BaseIndexer.__init__` (src lines 48-62): capture the watermark
`datetime.datetime.now()` as `now0` (src line 51) and bind the field set
(src lines 53-60).  `check_fields` (src line 62) is a call on the external
schema collaborator whose failure aborts construction; it does not change
the bound state, so it is not part of the value. -/
def mkIndexer (collection : String) (documents : Nat)
    (base_fields : List (String × Field)) (schema : Schema)
    (resolvers : String → Option (PyVal → Except AttrError PyVal))
    (now0 : Int) : Indexer :=
  { collection := collection
    documents := documents
    solr_update_timestamp := now0
    fields := initFields schema base_fields
    resolvers := resolvers }

/-! ## The metaclass (src lines 14-45) -/

/-- A value appearing in a `Meta` inner class body: the collection
identifier is a string, the batch threshold an integer. -/
inductive MetaVal : Type where
  | mstr : String → MetaVal
  | mint : Int → MetaVal
deriving DecidableEq

/-- One attribute of the class body handed to `IndexerMetaclass.__new__`:
a `Field` instance, an inner class (whose `__dict__` matters only when the
attribute is named `Meta`), or anything else (methods, plain values). -/
inductive ClassAttr : Type where
  | fieldAttr : Field → ClassAttr
  | metaAttr : List (String × MetaVal) → ClassAttr
  | otherAttr : ClassAttr

/-- The two `Exception`s raised by `IndexerMetaclass.__new__`
(src lines 37 and 39), carrying the indexer name interpolated into the
message. -/
inductive MetaclassError : Type where
  | missingMeta : String → MetaclassError
  | invalidMeta : String → MetaclassError

/-- The `isinstance(obj, Field)` arm of the attrs loop (src lines 28-30):
the `Field`-valued attributes, in iteration order, popped into
`base_fields`. -/
def collectBaseFields (attrs : List (String × ClassAttr)) : List (String × Field) :=
  attrs.filterMap (fun p =>
    match p.2 with
    | ClassAttr.fieldAttr f => some (p.1, f)
    | _ => Option.none)

/-- The `field_name == 'Meta'` arm (src lines 31-32): the `__dict__` of the
attribute named `Meta`, when there is one that is not itself a `Field`. -/
def findMeta (attrs : List (String × ClassAttr)) : Option (List (String × MetaVal)) :=
  (attrs.filterMap (fun p =>
    match p.2 with
    | ClassAttr.metaAttr m => if p.1 == "Meta" then some m else Option.none
    | _ => Option.none)).head?

/-- Src lines 32-34: keep the non-dunder entries of `Meta.__dict__` and
default `documents` to 100 when absent. -/
def processMeta (raw : List (String × MetaVal)) : List (String × MetaVal) :=
  let m := raw.filter (fun p => !strStartsWith p.1 "__")
  if m.any (fun p => p.1 == "documents") then m
  else m ++ [("documents", MetaVal.mint 100)]

/-- Src line 38: `set(meta.keys()).symmetric_difference(['collection',
'documents'])` is empty, i.e. the key set is exactly those two names. -/
def validMetaKeys (m : List (String × MetaVal)) : Bool :=
  m.all (fun p => p.1 == "collection" || p.1 == "documents")
    && m.any (fun p => p.1 == "collection")
    && m.any (fun p => p.1 == "documents")

/-- The class produced by the metaclass: `attrs['base_fields']` and
`attrs['_meta']` (src lines 41-42). -/
structure IndexerClass : Type where
  clsName : String
  base_fields : List (String × Field)
  meta : List (String × MetaVal)

/-- `IndexerMetaclass.__new__` on a class that has indexer parents
(src lines 19-45).  `bases` is the list of indexer parent classes; the
source checks only that it is non-empty (src lines 21-24, the early return
applies to `Indexer` itself) and never reads the parents' `base_fields`:
`attrs['base_fields']` is built from this class body alone (src line 41). -/
def metaclassNew (name : String) (bases : List IndexerClass)
    (attrs : List (String × ClassAttr)) : Except MetaclassError IndexerClass :=
  match findMeta attrs with
  | Option.none => Except.error (MetaclassError.missingMeta name)
  | some raw =>
      let meta := processMeta raw
      if validMetaKeys meta then
        Except.ok { clsName := name, base_fields := collectBaseFields attrs, meta := meta }
      else
        Except.error (MetaclassError.invalidMeta name)

/-! ## The reconciliation run (`BaseIndexer.update`, src lines 114-144) -/

/-- The delete filter of the sweep phase (src lines 132-133):
`Q(solr_collection=collection) & Q(solr_update_timestamp__lt=watermark)`. -/
structure DeleteQuery : Type where
  solr_collection : String
  solr_update_timestamp_lt : Int
deriving DecidableEq

/-- Src line 133: the filter is built from the bound collection identifier
and the watermark captured at construction. -/
def deleteQueryOf (idx : Indexer) : DeleteQuery :=
  { solr_collection := idx.collection
    solr_update_timestamp_lt := idx.solr_update_timestamp }

/-- Modelled from the spec: the `LuceneQuery` combinators used on src lines
132-133 live in `search.py`, which is not among the provided sources.  Per
the spec (section 4.3 Sweep) the filter is the boolean conjunction
`solr_collection == thisCollectionId AND solr_update_timestamp < T0`;
`matches` is its satisfaction on a document's collection tag and persisted
timestamp. -/
def DeleteQuery.matches (q : DeleteQuery) (doc_collection : String)
    (doc_timestamp : Int) : Bool :=
  doc_collection == q.solr_collection
    && doc_timestamp < q.solr_update_timestamp_lt

/-- Modelled from the spec: filter satisfaction on a whole transformed
document, reading its `solr_collection` and `solr_update_timestamp`
entries (a document lacking either never matches the conjunction). -/
def DeleteQuery.matchesDoc (q : DeleteQuery) (doc : List (String × PyVal)) : Bool :=
  match doc.lookup "solr_collection", doc.lookup "solr_update_timestamp" with
  | some (PyVal.pystr c), some (PyVal.pyint t) => q.matches c t
  | _, _ => false

/-- The calls `update` makes on the engine interface, in order.  `query`
carries the filter and whether the `lucene` local param was set (src lines
135-137); `delete` carries the filter serialized with local params cleared
(src lines 141-143). -/
inductive EngineOp : Type where
  | add : List (List (String × PyVal)) → EngineOp
  | commit : EngineOp
  | query : DeleteQuery → Bool → EngineOp
  | delete : DeleteQuery → EngineOp
  | optimize : EngineOp

/-- The record loop of `update` (src lines 117-123): for each record, when
the pending batch size already exceeds `self._meta['documents']`, flush it
with one `add` call and clear it (src lines 119-121); then transform the
record and append the document (src line 122).  Each record is paired with
the clock reading at which its transform resolves the timestamp field.  A
transform failure propagates, keeping the engine calls already made. -/
def updateGo (idx : Indexer) :
    List (PyVal × Int) → List (List (String × PyVal)) →
    List EngineOp × Except AttrError (List (List (String × PyVal)))
  | [], additions => ([], Except.ok additions)
  | (record, now) :: rest, additions =>
      if additions.length > idx.documents then
        match transform idx now record with
        | Except.error e => ([EngineOp.add additions], Except.error e)
        | Except.ok doc =>
            let next := updateGo idx rest [doc]
            (EngineOp.add additions :: next.1, next.2)
      else
        match transform idx now record with
        | Except.error e => ([], Except.error e)
        | Except.ok doc => updateGo idx rest (additions ++ [doc])

/-- `BaseIndexer.update` (src lines 114-144) as the trace of engine calls:
the batched `add`s, the remainder flush when non-empty (src lines 125-127),
one `commit` (src line 129), the count `query` with the `lucene` local
param set (src lines 132-137), the `delete` with local params cleared
(src lines 141-143), and one `optimize` (src line 144). -/
def update (idx : Indexer) (records : List (PyVal × Int)) :
    List EngineOp × Except AttrError Unit :=
  let r := updateGo idx records []
  match r.2 with
  | Except.error e => (r.1, Except.error e)
  | Except.ok additions =>
      let flushed := if additions.length ≠ 0 then [EngineOp.add additions] else []
      let q := deleteQueryOf idx
      (r.1 ++ flushed
        ++ [EngineOp.commit, EngineOp.query q true, EngineOp.delete q, EngineOp.optimize],
       Except.ok ())

/-! ## Trace observations -/

/-- Number of `add` calls issued before the first `commit` of a trace. -/
def addsBeforeCommit : List EngineOp → Nat
  | [] => 0
  | EngineOp.commit :: _ => 0
  | EngineOp.add _ :: rest => addsBeforeCommit rest + 1
  | _ :: rest => addsBeforeCommit rest

def isAddOp : EngineOp → Bool
  | EngineOp.add _ => true
  | _ => false

def isCommitOp : EngineOp → Bool
  | EngineOp.commit => true
  | _ => false

def isDeleteOp : EngineOp → Bool
  | EngineOp.delete _ => true
  | _ => false

def isOptimizeOp : EngineOp → Bool
  | EngineOp.optimize => true
  | _ => false

/-- The sizes of the batches handed to the engine's `add`, in order. -/
def addBatchSizes (ops : List EngineOp) : List Nat :=
  ops.filterMap (fun op =>
    match op with
    | EngineOp.add docs => some docs.length
    | _ => Option.none)

/-! ## Concrete instances for the scenario claims -/

/-- A schema stub on which every field is static and displays as itself. -/
def staticSchema : Schema :=
  { match_field := fun _ => { dynamic := false, display_name := fun n => n } }

/-- The end-to-end scenario indexer of spec section 8: collection
`"widgets"`, one declared field `title` bound to attribute path `name`, no
subclass resolvers. -/
def titleIndexer (threshold : Nat) (watermark : Int) : Indexer :=
  mkIndexer "widgets" threshold
    [("title", { attributePath := some "name", optional := false })]
    staticSchema (fun _ => Option.none) watermark

/-- A record exposing a single `name` attribute. -/
def namedRecord (s : String) : PyVal :=
  PyVal.pyobj [("name", PyVal.pystr s)]

/-- Five records with strictly increasing transform-time clock readings,
all after a watermark of 10. -/
def fiveRecords : List (PyVal × Int) :=
  [(namedRecord "r1", 11), (namedRecord "r2", 12), (namedRecord "r3", 13),
   (namedRecord "r4", 14), (namedRecord "r5", 15)]

/-- Whether a transform call raised `AttributeError`. -/
def isAttrFailure {α : Type} : Except AttrError α → Bool
  | Except.error _ => true
  | Except.ok _ => false

/-- Field `(field_name, field)` never contributes an output entry named `k`
to the document, for this record at this clock reading. -/
def FieldAvoids (idx : Indexer) (now : Int) (record : PyVal) (k : String)
    (field_name : String) (field : BoundField) : Prop :=
  ∀ data, transformField idx now record field_name field = Except.ok data →
    ∀ p, p ∈ data → p.1 ≠ k

/-- `FieldAvoids` at every clock reading and record. -/
def FieldAlwaysAvoids (idx : Indexer) (k : String)
    (field_name : String) (field : BoundField) : Prop :=
  ∀ now record, FieldAvoids idx now record k field_name field

/-- An indexer whose bound field set holds exactly one declared field
`title` with attribute path `name` (the built-ins left out, isolating the
attribute-path rule). -/
def soloTitleIndexer : Indexer :=
  { collection := "widgets"
    documents := 100
    solr_update_timestamp := 10
    fields := [("title", bindField staticSchema "title"
        { attributePath := some "name", optional := false })]
    resolvers := fun _ => Option.none }

/-- Like `soloTitleIndexer` but with the `title` field optional. -/
def soloOptionalIndexer : Indexer :=
  { collection := "widgets"
    documents := 100
    solr_update_timestamp := 10
    fields := [("title", bindField staticSchema "title"
        { attributePath := some "name", optional := true })]
    resolvers := fun _ => Option.none }

/-- A record with no attributes at all, so any attribute path fails. -/
def bareRecord : PyVal := PyVal.pyobj []

/-- A schema on which exactly `title_1_TO_X` is dynamic. -/
def oneToManySchema : Schema :=
  { match_field := fun n =>
      { dynamic := n == "title_1_TO_X", display_name := fun m => m } }

/-- An indexer declaring the dynamic one-to-many field `title_1_TO_X`, whose
base-name resolver `transform_title` returns the mapping `a: 1, b: 2`. -/
def oneToManyIndexer : Indexer :=
  mkIndexer "widgets" 100
    [("title_1_TO_X", { attributePath := Option.none, optional := false })]
    oneToManySchema
    (fun n =>
      if n == "transform_title" then
        some (fun _ => Except.ok (PyVal.pydict [("a", PyVal.pyint 1), ("b", PyVal.pyint 2)]))
      else Option.none)
    10

/-! ## Concrete classes for the metaclass claims -/

/-- A declared field reading attribute `a`. -/
def aField : Field := { attributePath := some "a", optional := false }

/-- A declared field reading attribute `b`. -/
def bField : Field := { attributePath := some "b", optional := false }

/-- A `Meta` body declaring only the collection identifier. -/
def widgetsMeta : List (String × MetaVal) := [("collection", MetaVal.mstr "widgets")]

/-- Stand-in for the `Indexer` root class (src lines 147-148), which the
metaclass early-returns without `base_fields` or `_meta`. -/
def indexerRootClass : IndexerClass :=
  { clsName := "Indexer", base_fields := [], meta := [] }

/-- Class body of a parent indexer declaring field `a`. -/
def parentAttrs : List (String × ClassAttr) :=
  [("a", ClassAttr.fieldAttr aField), ("Meta", ClassAttr.metaAttr widgetsMeta)]

/-- Class body of a child indexer declaring only field `b`. -/
def childAttrs : List (String × ClassAttr) :=
  [("b", ClassAttr.fieldAttr bField), ("Meta", ClassAttr.metaAttr widgetsMeta)]

/-- What the metaclass produces for `parentAttrs`. -/
def parentClass : IndexerClass :=
  { clsName := "Parent"
    base_fields := [("a", aField)]
    meta := [("collection", MetaVal.mstr "widgets"), ("documents", MetaVal.mint 100)] }

/-- What the metaclass produces for `childAttrs`. -/
def childClass : IndexerClass :=
  { clsName := "Child"
    base_fields := [("b", bField)]
    meta := [("collection", MetaVal.mstr "widgets"), ("documents", MetaVal.mint 100)] }

/-- Declared fields containing a user field that clashes with the built-in
`solr_collection` name. -/
def clashFields : List (String × Field) :=
  [("solr_collection", { attributePath := some "x", optional := true }),
   ("title", { attributePath := some "name", optional := false })]

/-- A class body with no `Meta` attribute. -/
def noMetaAttrs : List (String × ClassAttr) :=
  [("a", ClassAttr.fieldAttr aField)]

/-- A class body whose `Meta` holds a key other than `collection` and
`documents`. -/
def extraKeyAttrs : List (String × ClassAttr) :=
  [("Meta", ClassAttr.metaAttr
    [("collection", MetaVal.mstr "widgets"), ("extra", MetaVal.mint 7)])]

/-! ## Supporting lemmas -/

theorem str_beq_false (a b : String) (h : a ≠ b) : (a == b) = false :=
  beq_eq_false_iff_ne.mpr h

theorem lookup_cons_self {α : Type} (a : String) (b : α) (d : List (String × α)) :
    ((a, b) :: d).lookup a = some b := by
  simp [List.lookup_cons]

theorem lookup_cons_ne {α : Type} (a k : String) (b : α) (d : List (String × α))
    (h : k ≠ a) : ((a, b) :: d).lookup k = d.lookup k := by
  simp [List.lookup_cons, str_beq_false k a h]

theorem dictInsert_lookup_self {α : Type} (k : String) (v : α) :
    ∀ d : List (String × α), (dictInsert d k v).lookup k = some v
  | [] => by simp [dictInsert, List.lookup_cons]
  | (a, b) :: d => by
      by_cases hak : a = k
      · subst hak
        simp [dictInsert, List.lookup_cons]
      · simp [dictInsert, str_beq_false a k hak, List.lookup_cons,
          str_beq_false k a (Ne.symm hak), dictInsert_lookup_self k v d]

theorem dictInsert_lookup_ne {α : Type} (k q : String) (v : α) (hqk : q ≠ k) :
    ∀ d : List (String × α), (dictInsert d k v).lookup q = d.lookup q
  | [] => by simp [dictInsert, List.lookup_cons, str_beq_false q k hqk]
  | (a, b) :: d => by
      by_cases hak : a = k
      · subst hak
        simp [dictInsert, List.lookup_cons, str_beq_false q a hqk]
      · by_cases hqa : q = a
        · subst hqa
          simp [dictInsert, str_beq_false q k hak, List.lookup_cons]
        · simp [dictInsert, str_beq_false a k hak, List.lookup_cons,
            str_beq_false q a hqa, dictInsert_lookup_ne k q v hqk d]

theorem foldl_dictInsert_lookup_ne {α : Type} (k : String) :
    ∀ (data : List (String × α)) (d : List (String × α)),
      (∀ p, p ∈ data → p.1 ≠ k) →
      (data.foldl (fun d2 p => dictInsert d2 p.1 p.2) d).lookup k = d.lookup k
  | [], _, _ => rfl
  | (a, b) :: data, d, h => by
      rw [List.foldl_cons]
      rw [foldl_dictInsert_lookup_ne k data (dictInsert d a b)
        (fun p hp => h p (List.mem_cons_of_mem _ hp))]
      exact dictInsert_lookup_ne a k b (Ne.symm (h (a, b) (List.mem_cons_self _ _))) d

theorem lookup_map_bindField (schema : Schema) :
    ∀ (d : List (String × Field)) (k : String),
      ((d.map (fun p => (p.1, bindField schema p.1 p.2))).lookup k)
        = (d.lookup k).map (fun f => bindField schema k f)
  | [], _ => rfl
  | (a, b) :: d, k => by
      by_cases hka : k = a
      · subst hka
        simp [List.lookup_cons]
      · simp [List.lookup_cons, str_beq_false k a hka, lookup_map_bindField schema d k]

theorem transformField_attr_ok (idx : Indexer) (now : Int) (record : PyVal)
    (fn : String) (f : BoundField) (path : String) (v : PyVal)
    (hattr : f.attributePath = some path)
    (hres : resolveSegs record (splitOnDots path) = Except.ok v) :
    transformField idx now record fn f = Except.ok [(fn, v)] := by
  unfold transformField
  rw [hattr]
  simp only [hres]
  rfl

theorem transformField_attr_err (idx : Indexer) (now : Int) (record : PyVal)
    (fn : String) (f : BoundField) (path : String) (e : AttrError)
    (hattr : f.attributePath = some path)
    (hres : resolveSegs record (splitOnDots path) = Except.error e) :
    transformField idx now record fn f = Except.error e := by
  unfold transformField
  rw [hattr]
  simp only [hres]
  rfl

theorem transformField_solr_collection (idx : Indexer) (now : Int) (record : PyVal)
    (f : BoundField)
    (hattr : f.attributePath = Option.none) (hdyn : f.solr_dynamic = false)
    (hres : idx.resolvers "transform_solr_collection" = Option.none) :
    transformField idx now record "solr_collection" f
      = Except.ok [("solr_collection", PyVal.pystr idx.collection)] := by
  unfold transformField
  rw [hattr, hdyn]
  have hname : ("transform_" ++ "solr_collection" : String) = "transform_solr_collection" := rfl
  simp only [Bool.false_eq_true, if_false, getResolver, hname, hres]
  rfl

theorem transformField_solr_update_timestamp (idx : Indexer) (now : Int) (record : PyVal)
    (f : BoundField)
    (hattr : f.attributePath = Option.none) (hdyn : f.solr_dynamic = false)
    (hres : idx.resolvers "transform_solr_update_timestamp" = Option.none) :
    transformField idx now record "solr_update_timestamp" f
      = Except.ok [("solr_update_timestamp", PyVal.pyint now)] := by
  unfold transformField
  rw [hattr, hdyn]
  have hname : ("transform_" ++ "solr_update_timestamp" : String)
      = "transform_solr_update_timestamp" := rfl
  simp only [Bool.false_eq_true, if_false, getResolver, hname, hres]
  rfl

theorem runFields_cons (idx : Indexer) (now : Int) (record : PyVal)
    (fn : String) (f : BoundField) (rest : List (String × BoundField))
    (doc : List (String × PyVal)) :
    runFields idx now record ((fn, f) :: rest) doc
      = match transformField idx now record fn f with
        | Except.error e =>
            if f.optional then runFields idx now record rest doc else Except.error e
        | Except.ok data =>
            runFields idx now record rest
              (data.foldl (fun d p => dictInsert d p.1 p.2) doc) := rfl

theorem runFields_frame (idx : Indexer) (now : Int) (record : PyVal) (k : String) :
    ∀ (flds : List (String × BoundField)) (doc0 doc : List (String × PyVal)),
      runFields idx now record flds doc0 = Except.ok doc →
      (∀ fn f, (fn, f) ∈ flds → FieldAvoids idx now record k fn f) →
      doc.lookup k = doc0.lookup k
  | [], doc0, doc, hok, _ => by
      injection hok with h
      rw [h]
  | (fn, f) :: rest, doc0, doc, hok, hav => by
      rw [runFields_cons] at hok
      cases htf : transformField idx now record fn f with
      | error e =>
          simp only [htf] at hok
          by_cases hopt : f.optional = true
          · rw [if_pos hopt] at hok
            exact runFields_frame idx now record k rest doc0 doc hok
              (fun fn2 f2 h2 => hav fn2 f2 (List.mem_cons_of_mem _ h2))
          · rw [if_neg hopt] at hok
            cases hok
      | ok data =>
          simp only [htf] at hok
          have hrec := runFields_frame idx now record k rest _ doc hok
            (fun fn2 f2 h2 => hav fn2 f2 (List.mem_cons_of_mem _ h2))
          rw [hrec]
          exact foldl_dictInsert_lookup_ne k data doc0
            (hav fn f (List.mem_cons_self _ _) data htf)

theorem runFields_write (idx : Indexer) (now : Int) (record : PyVal)
    (k : String) (v : PyVal) :
    ∀ (pre : List (String × BoundField)) (fn : String) (f : BoundField)
      (post : List (String × BoundField)) (doc0 doc : List (String × PyVal)),
      runFields idx now record (pre ++ (fn, f) :: post) doc0 = Except.ok doc →
      (∀ fn2 f2, (fn2, f2) ∈ pre → FieldAvoids idx now record k fn2 f2) →
      (∀ fn2 f2, (fn2, f2) ∈ post → FieldAvoids idx now record k fn2 f2) →
      transformField idx now record fn f = Except.ok [(k, v)] →
      doc.lookup k = some v
  | [], fn, f, post, doc0, doc, hok, _, hpost, htf => by
      rw [List.nil_append, runFields_cons] at hok
      simp only [htf, List.foldl_cons, List.foldl_nil] at hok
      rw [runFields_frame idx now record k post _ doc hok hpost]
      exact dictInsert_lookup_self k v doc0
  | (fn2, f2) :: pre, fn, f, post, doc0, doc, hok, hpre, hpost, htf => by
      rw [List.cons_append, runFields_cons] at hok
      cases htf2 : transformField idx now record fn2 f2 with
      | error e =>
          simp only [htf2] at hok
          by_cases hopt : f2.optional = true
          · rw [if_pos hopt] at hok
            exact runFields_write idx now record k v pre fn f post doc0 doc hok
              (fun fn3 f3 h3 => hpre fn3 f3 (List.mem_cons_of_mem _ h3)) hpost htf
          · rw [if_neg hopt] at hok
            cases hok
      | ok data =>
          simp only [htf2] at hok
          exact runFields_write idx now record k v pre fn f post _ doc hok
            (fun fn3 f3 h3 => hpre fn3 f3 (List.mem_cons_of_mem _ h3)) hpost htf

theorem runFields_skip (idx : Indexer) (now : Int) (record : PyVal) (k : String) :
    ∀ (pre : List (String × BoundField)) (fn : String) (f : BoundField)
      (post : List (String × BoundField)) (doc0 doc : List (String × PyVal)),
      runFields idx now record (pre ++ (fn, f) :: post) doc0 = Except.ok doc →
      (∀ fn2 f2, (fn2, f2) ∈ pre → FieldAvoids idx now record k fn2 f2) →
      (∀ fn2 f2, (fn2, f2) ∈ post → FieldAvoids idx now record k fn2 f2) →
      isAttrFailure (transformField idx now record fn f) = true →
      f.optional = true →
      doc.lookup k = doc0.lookup k
  | [], fn, f, post, doc0, doc, hok, _, hpost, hfail, hopt => by
      rw [List.nil_append, runFields_cons] at hok
      cases htf : transformField idx now record fn f with
      | error e =>
          simp only [htf, if_pos hopt] at hok
          exact runFields_frame idx now record k post doc0 doc hok hpost
      | ok data =>
          rw [htf] at hfail
          cases hfail
  | (fn2, f2) :: pre, fn, f, post, doc0, doc, hok, hpre, hpost, hfail, hopt => by
      rw [List.cons_append, runFields_cons] at hok
      cases htf2 : transformField idx now record fn2 f2 with
      | error e =>
          simp only [htf2] at hok
          by_cases hopt2 : f2.optional = true
          · rw [if_pos hopt2] at hok
            exact runFields_skip idx now record k pre fn f post doc0 doc hok
              (fun fn3 f3 h3 => hpre fn3 f3 (List.mem_cons_of_mem _ h3)) hpost hfail hopt
          · rw [if_neg hopt2] at hok
            cases hok
      | ok data =>
          simp only [htf2] at hok
          have hrec := runFields_skip idx now record k pre fn f post _ doc hok
            (fun fn3 f3 h3 => hpre fn3 f3 (List.mem_cons_of_mem _ h3)) hpost hfail hopt
          rw [hrec]
          exact foldl_dictInsert_lookup_ne k data doc0
            (hpre fn2 f2 (List.mem_cons_self _ _) data htf2)

theorem runFields_err (idx : Indexer) (now : Int) (record : PyVal) :
    ∀ (flds : List (String × BoundField)) (doc0 : List (String × PyVal))
      (fn : String) (f : BoundField),
      (fn, f) ∈ flds →
      isAttrFailure (transformField idx now record fn f) = true →
      f.optional = false →
      isAttrFailure (runFields idx now record flds doc0) = true
  | [], _, fn, f, hmem, _, _ => by cases hmem
  | (fn2, f2) :: rest, doc0, fn, f, hmem, hfail, hopt => by
      rw [runFields_cons]
      cases htf2 : transformField idx now record fn2 f2 with
      | error e =>
          by_cases hopt2 : f2.optional = true
          · simp only [htf2, if_pos hopt2]
            rcases List.mem_cons.mp hmem with heq | hmem2
            · exfalso
              have h2 : f = f2 := congrArg Prod.snd heq
              rw [h2, hopt2] at hopt
              cases hopt
            · exact runFields_err idx now record rest doc0 fn f hmem2 hfail hopt
          · simp only [htf2, if_neg hopt2]
            rfl
      | ok data =>
          simp only [htf2]
          rcases List.mem_cons.mp hmem with heq | hmem2
          · exfalso
            have h1 : fn = fn2 := congrArg Prod.fst heq
            have h2 : f = f2 := congrArg Prod.snd heq
            rw [h1, h2, htf2] at hfail
            cases hfail
          · exact runFields_err idx now record rest _ fn f hmem2 hfail hopt
theorem transformField_static_ok (idx : Indexer) (now : Int) (record : PyVal)
    (fn : String) (f : BoundField) (g : PyVal → Except AttrError PyVal) (v : PyVal)
    (hattr : f.attributePath = Option.none) (hdyn : f.solr_dynamic = false)
    (hr : getResolver idx now ("transform_" ++ fn) = some g)
    (hg : g record = Except.ok v) :
    transformField idx now record fn f = Except.ok [(fn, v)] := by
  unfold transformField
  rw [hattr, hdyn]
  simp only [Bool.false_eq_true, if_false, hr, hg]
  rfl

theorem transformField_static_err (idx : Indexer) (now : Int) (record : PyVal)
    (fn : String) (f : BoundField) (g : PyVal → Except AttrError PyVal) (e : AttrError)
    (hattr : f.attributePath = Option.none) (hdyn : f.solr_dynamic = false)
    (hr : getResolver idx now ("transform_" ++ fn) = some g)
    (hg : g record = Except.error e) :
    transformField idx now record fn f = Except.error e := by
  unfold transformField
  rw [hattr, hdyn]
  simp only [Bool.false_eq_true, if_false, hr, hg]
  rfl

theorem transformField_static_noresolver (idx : Indexer) (now : Int) (record : PyVal)
    (fn : String) (f : BoundField)
    (hattr : f.attributePath = Option.none) (hdyn : f.solr_dynamic = false)
    (hr : getResolver idx now ("transform_" ++ fn) = Option.none) :
    transformField idx now record fn f = Except.error ⟨"transform_" ++ fn⟩ := by
  unfold transformField
  rw [hattr, hdyn]
  simp only [Bool.false_eq_true, if_false, hr]

theorem transformField_display_ok (idx : Indexer) (now : Int) (record : PyVal)
    (fn : String) (f : BoundField) (g : PyVal → Except AttrError PyVal) (v : PyVal)
    (hattr : f.attributePath = Option.none) (hdyn : f.solr_dynamic = true)
    (hmark : strEndsWith fn "_1_TO_X" = false)
    (hr : getResolver idx now ("transform_" ++ f.solr_display_name fn) = some g)
    (hg : g record = Except.ok v) :
    transformField idx now record fn f = Except.ok [(fn, v)] := by
  unfold transformField
  rw [hattr, hdyn]
  simp only [if_true, hmark, Bool.false_eq_true, if_false, hr, hg]
  rfl

theorem transformField_display_err (idx : Indexer) (now : Int) (record : PyVal)
    (fn : String) (f : BoundField) (g : PyVal → Except AttrError PyVal) (e : AttrError)
    (hattr : f.attributePath = Option.none) (hdyn : f.solr_dynamic = true)
    (hmark : strEndsWith fn "_1_TO_X" = false)
    (hr : getResolver idx now ("transform_" ++ f.solr_display_name fn) = some g)
    (hg : g record = Except.error e) :
    transformField idx now record fn f = Except.error e := by
  unfold transformField
  rw [hattr, hdyn]
  simp only [if_true, hmark, Bool.false_eq_true, if_false, hr, hg]
  rfl

theorem transformField_display_noresolver (idx : Indexer) (now : Int) (record : PyVal)
    (fn : String) (f : BoundField)
    (hattr : f.attributePath = Option.none) (hdyn : f.solr_dynamic = true)
    (hmark : strEndsWith fn "_1_TO_X" = false)
    (hr : getResolver idx now ("transform_" ++ f.solr_display_name fn) = Option.none) :
    transformField idx now record fn f
      = Except.error ⟨"transform_" ++ f.solr_display_name fn⟩ := by
  unfold transformField
  rw [hattr, hdyn]
  simp only [if_true, hmark, Bool.false_eq_true, if_false, hr]

theorem transformField_one_to_many_ok (idx : Indexer) (now : Int) (record : PyVal)
    (fn : String) (f : BoundField) (g : PyVal → Except AttrError PyVal)
    (items : List (String × PyVal))
    (hattr : f.attributePath = Option.none) (hdyn : f.solr_dynamic = true)
    (hmark : strEndsWith fn "_1_TO_X" = true)
    (hr : getResolver idx now
      ("transform_" ++ strReplace (strReplace fn "_1_TO_X" "%s") "%s" "") = some g)
    (hg : g record = Except.ok (PyVal.pydict items)) :
    transformField idx now record fn f
      = Except.ok (items.map (fun p =>
          (strReplace (strReplace fn "_1_TO_X" "%s") "%s" ("_" ++ p.1), p.2))) := by
  unfold transformField
  rw [hattr, hdyn]
  simp only [if_true, hmark, hr, hg, pyItems]
  rfl

theorem transformField_keys_self (idx : Indexer) (now : Int) (record : PyVal)
    (fn : String) (f : BoundField) (data : List (String × PyVal))
    (hcase : f.attributePath ≠ Option.none ∨ f.solr_dynamic = false
      ∨ strEndsWith fn "_1_TO_X" = false)
    (h : transformField idx now record fn f = Except.ok data) :
    ∃ v, data = [(fn, v)] := by
  cases hattr : f.attributePath with
  | some path =>
      cases hres : resolveSegs record (splitOnDots path) with
      | ok v =>
          rw [transformField_attr_ok idx now record fn f path v hattr hres] at h
          exact ⟨v, (Except.ok.inj h).symm⟩
      | error e =>
          rw [transformField_attr_err idx now record fn f path e hattr hres] at h
          cases h
  | none =>
      cases hdyn : f.solr_dynamic with
      | false =>
          cases hr : getResolver idx now ("transform_" ++ fn) with
          | none =>
              rw [transformField_static_noresolver idx now record fn f hattr hdyn hr] at h
              cases h
          | some g =>
              cases hg : g record with
              | ok v =>
                  rw [transformField_static_ok idx now record fn f g v hattr hdyn hr hg] at h
                  exact ⟨v, (Except.ok.inj h).symm⟩
              | error e =>
                  rw [transformField_static_err idx now record fn f g e hattr hdyn hr hg] at h
                  cases h
      | true =>
          have hmark : strEndsWith fn "_1_TO_X" = false := by
            rcases hcase with h1 | h1 | h1
            · exact absurd hattr h1
            · rw [hdyn] at h1
              cases h1
            · exact h1
          cases hr : getResolver idx now ("transform_" ++ f.solr_display_name fn) with
          | none =>
              rw [transformField_display_noresolver idx now record fn f
                hattr hdyn hmark hr] at h
              cases h
          | some g =>
              cases hg : g record with
              | ok v =>
                  rw [transformField_display_ok idx now record fn f g v
                    hattr hdyn hmark hr hg] at h
                  exact ⟨v, (Except.ok.inj h).symm⟩
              | error e =>
                  rw [transformField_display_err idx now record fn f g e
                    hattr hdyn hmark hr hg] at h
                  cases h

theorem fieldAlwaysAvoids_of_static (idx : Indexer) (k fn : String) (f : BoundField)
    (hcase : f.attributePath ≠ Option.none ∨ f.solr_dynamic = false
      ∨ strEndsWith fn "_1_TO_X" = false)
    (hne : fn ≠ k) : FieldAlwaysAvoids idx k fn f := by
  intro now record data h p hp
  obtain ⟨v, hv⟩ := transformField_keys_self idx now record fn f data hcase h
  subst hv
  cases List.mem_singleton.mp hp
  exact hne

theorem lookup_append_absent {α : Type} (k : String) (v : α) :
    ∀ d : List (String × α), d.all (fun p => !(p.1 == k)) = true →
      (d ++ [(k, v)]).lookup k = some v
  | [], _ => by simp [List.lookup_cons]
  | (a, b) :: d, h => by
      simp only [List.all_cons, Bool.and_eq_true, Bool.not_eq_true'] at h
      rw [List.cons_append,
        lookup_cons_ne a k b _ (Ne.symm (ne_of_beq_false h.1))]
      exact lookup_append_absent k v d h.2

theorem validMetaKeys_false_of_extra (m : List (String × MetaVal))
    (p : String × MetaVal) (k : String) (hpm : p ∈ m) (hpk : p.1 = k)
    (hkc : k ≠ "collection") (hkd : k ≠ "documents") :
    validMetaKeys m = false := by
  unfold validMetaKeys
  cases hall : m.all (fun p => p.1 == "collection" || p.1 == "documents") with
  | false => simp
  | true =>
      exfalso
      have hx := List.all_eq_true.mp hall p hpm
      rw [hpk] at hx
      simp only [Bool.or_eq_true, beq_iff_eq] at hx
      rcases hx with h | h
      · exact hkc h
      · exact hkd h


/-! ## The claims -/

/-- C2 counterexample: with `batchThreshold = 2` and 5 records the run does
NOT make 3 `add` calls before the final commit.  The flush check precedes
the append (src lines 119-122), so the only intermediate flush happens at
the start of the 4th iteration (3 pending > 2), and the remainder flush
sends the last 2 documents: 2 `add` calls in total. -/
theorem C2_three_adds_false :
    ¬ addsBeforeCommit (update (titleIndexer 2 10) fiveRecords).1 = 3 := by
  have h2 : addsBeforeCommit (update (titleIndexer 2 10) fiveRecords).1 = 2 := by rfl
  intro h
  rw [h2] at h
  cases h

/-- C2 amended: with `batchThreshold = 2` and 5 records the controller makes
exactly 2 `add` calls before the single final commit - the intermediate
flush fires when, on pulling a record, the pending batch size already
exceeds the threshold (batch of 3), plus one remainder flush (batch of 2) -
and the run makes exactly one `commit`, one `delete` and one `optimize`
call. -/
theorem C2_batching :
    addsBeforeCommit (update (titleIndexer 2 10) fiveRecords).1 = 2
    ∧ addBatchSizes (update (titleIndexer 2 10) fiveRecords).1 = [3, 2]
    ∧ (update (titleIndexer 2 10) fiveRecords).1.countP isCommitOp = 1
    ∧ (update (titleIndexer 2 10) fiveRecords).1.countP isDeleteOp = 1
    ∧ (update (titleIndexer 2 10) fiveRecords).1.countP isOptimizeOp = 1 := by
  refine ⟨?_, ?_, ?_, ?_, ?_⟩ <;> rfl

/-- C3: the composed field set is NOT merged with the ancestor's.  A parent
indexer declares field `a`; its child declares only `b`.  The metaclass
(despite its own docstring, src lines 15-17) never reads the parents'
`base_fields` (src lines 19-45), so the child's composed field set lacks
`a` - contradicting the claimed own-fields-over-ancestor merge. -/
theorem C3_no_ancestor_merge :
    metaclassNew "Parent" [indexerRootClass] parentAttrs = Except.ok parentClass
    ∧ parentClass.base_fields.lookup "a" = some aField
    ∧ metaclassNew "Child" [parentClass] childAttrs = Except.ok childClass
    ∧ childClass.base_fields.lookup "a" = Option.none
    ∧ childClass.base_fields.lookup "b" = some bField := by
  refine ⟨?_, ?_, ?_, ?_, ?_⟩ <;> rfl

/-- C4: a class body without a `Meta` block fails with the
missing-configuration error; a `Meta` block holding any (non-dunder) key
other than `collection`/`documents` fails with the invalid-keys error; and
when `documents` is absent it defaults to 100 (src lines 26-42). -/
theorem C4_meta_validation (name : String) (bases : List IndexerClass)
    (attrs : List (String × ClassAttr)) :
    (findMeta attrs = Option.none →
      metaclassNew name bases attrs = Except.error (MetaclassError.missingMeta name))
    ∧ (∀ raw p k, findMeta attrs = some raw → p ∈ raw → p.1 = k →
        strStartsWith k "__" = false → k ≠ "collection" → k ≠ "documents" →
        metaclassNew name bases attrs = Except.error (MetaclassError.invalidMeta name))
    ∧ (∀ raw cls, findMeta attrs = some raw →
        raw.all (fun q => !(q.1 == "documents")) = true →
        metaclassNew name bases attrs = Except.ok cls →
        cls.meta.lookup "documents" = some (MetaVal.mint 100)) := by
  refine ⟨?_, ?_, ?_⟩
  · intro h
    unfold metaclassNew
    rw [h]
  · intro raw p k hfind hpm hpk hdund hkc hkd
    have hmemf : p ∈ raw.filter (fun q => !strStartsWith q.1 "__") := by
      refine List.mem_filter.mpr ⟨hpm, ?_⟩
      rw [hpk, hdund]
      rfl
    have hmem2 : p ∈ processMeta raw := by
      simp only [processMeta]
      split
      · exact hmemf
      · exact List.mem_append_left _ hmemf
    have hval := validMetaKeys_false_of_extra (processMeta raw) p k hmem2 hpk hkc hkd
    unfold metaclassNew
    rw [hfind]
    simp only [hval, Bool.false_eq_true, if_false]
  · intro raw cls hfind habs hok
    unfold metaclassNew at hok
    rw [hfind] at hok
    have hany : (raw.filter (fun q => !strStartsWith q.1 "__")).any
        (fun q => q.1 == "documents") = false := by
      cases hx : (raw.filter (fun q => !strStartsWith q.1 "__")).any
          (fun q => q.1 == "documents") with
      | false => rfl
      | true =>
          exfalso
          obtain ⟨q, hqm, hq⟩ := List.any_eq_true.mp hx
          have hq2 := List.all_eq_true.mp habs q (List.mem_filter.mp hqm).1
          rw [hq] at hq2
          cases hq2
    have hpm : processMeta raw
        = raw.filter (fun q => !strStartsWith q.1 "__") ++ [("documents", MetaVal.mint 100)] := by
      simp only [processMeta, hany, Bool.false_eq_true, if_false]
    simp only [hpm] at hok
    cases hvk : validMetaKeys
        (raw.filter (fun q => !strStartsWith q.1 "__") ++ [("documents", MetaVal.mint 100)]) with
    | false =>
        rw [hvk] at hok
        simp only [Bool.false_eq_true, if_false] at hok
        cases hok
    | true =>
        rw [hvk] at hok
        simp only [if_true] at hok
        have hcls := Except.ok.inj hok
        rw [← hcls]
        exact lookup_append_absent "documents" (MetaVal.mint 100) _
          (List.all_eq_true.mpr
            (fun q hq => List.all_eq_true.mp habs q (List.mem_filter.mp hq).1))

/-- C4 witness: the three validation behaviours at concrete class bodies. -/
theorem C4_meta_validation_witness :
    metaclassNew "NoMeta" [indexerRootClass] noMetaAttrs
      = Except.error (MetaclassError.missingMeta "NoMeta")
    ∧ metaclassNew "Extra" [indexerRootClass] extraKeyAttrs
      = Except.error (MetaclassError.invalidMeta "Extra")
    ∧ parentClass.meta.lookup "documents" = some (MetaVal.mint 100) := by
  refine ⟨?_, ?_, ?_⟩
  · exact (C4_meta_validation "NoMeta" [indexerRootClass] noMetaAttrs).1 rfl
  · exact (C4_meta_validation "Extra" [indexerRootClass] extraKeyAttrs).2.1
      [("collection", MetaVal.mstr "widgets"), ("extra", MetaVal.mint 7)]
      ("extra", MetaVal.mint 7) "extra" rfl
      (List.mem_cons_of_mem _ (List.mem_singleton.mpr rfl)) rfl rfl
      (by decide) (by decide)
  · exact (C4_meta_validation "Parent" [indexerRootClass] parentAttrs).2.2
      widgetsMeta parentClass rfl rfl rfl


/-- C1: the reconciliation run's delete filter is the conjunction
`solr_collection == collection AND solr_update_timestamp < T0` (src lines
132-133): every successful run issues exactly this filter to the engine's
`delete`; on collection "widgets" a document stamped strictly before the
watermark matches, one stamped at or after it does not, and a document of a
different collection never matches, whatever its timestamp. -/
theorem C1_delete_filter (idx : Indexer) (records : List (PyVal × Int))
    (ops : List EngineOp) (t_old t_new t : Int)
    (hcoll : idx.collection = "widgets")
    (hold : t_old < idx.solr_update_timestamp)
    (hnew : idx.solr_update_timestamp ≤ t_new)
    (hrun : update idx records = (ops, Except.ok ())) :
    EngineOp.delete (deleteQueryOf idx) ∈ ops
    ∧ (deleteQueryOf idx).matches "widgets" t_old = true
    ∧ (deleteQueryOf idx).matches "widgets" t_new = false
    ∧ ∀ c, c ≠ "widgets" → (deleteQueryOf idx).matches c t = false := by
  refine ⟨?_, ?_, ?_, ?_⟩
  · unfold update at hrun
    cases hgo : (updateGo idx records []).2 with
    | error e =>
        simp only [hgo] at hrun
        injection hrun with h1 h2
        cases h2
    | ok additions =>
        simp only [hgo] at hrun
        injection hrun with h1 h2
        rw [← h1]
        simp [List.mem_append]
  · simp [DeleteQuery.matches, deleteQueryOf, hcoll, hold]
  · simp [DeleteQuery.matches, deleteQueryOf, hcoll, not_lt.mpr hnew]
  · intro c hc
    simp [DeleteQuery.matches, deleteQueryOf, hcoll, str_beq_false c "widgets" hc]

/-- C1 witness: the filter of the five-record "widgets" run at watermark 10
keeps timestamp 12 and catches timestamp 5, and never catches another
collection. -/
theorem C1_delete_filter_witness :
    EngineOp.delete (deleteQueryOf (titleIndexer 2 10))
        ∈ (update (titleIndexer 2 10) fiveRecords).1
    ∧ (deleteQueryOf (titleIndexer 2 10)).matches "widgets" 5 = true
    ∧ (deleteQueryOf (titleIndexer 2 10)).matches "widgets" 12 = false
    ∧ (deleteQueryOf (titleIndexer 2 10)).matches "gadgets" 5 = false := by
  obtain ⟨h1, h2, h3, h4⟩ := C1_delete_filter (titleIndexer 2 10) fiveRecords
    (update (titleIndexer 2 10) fiveRecords).1 5 12 5 rfl (by decide) (by decide) (by rfl)
  exact ⟨h1, h2, h3, h4 "gadgets" (by decide)⟩

/-- C10: after `BaseIndexer.__init__` binds the field set (src lines 53-60),
the built-ins `solr_collection` and `solr_update_timestamp` are present and
carry the default descriptor (installed by `dict.update` after the declared
fields were copied, hence replacing any same-named user field), while every
other name is bound exactly as declared.  The declared `base_fields` value
itself is untouched: the source deep-copies it and the embedding is pure. -/
theorem C10_builtin_fields (schema : Schema) (base_fields : List (String × Field)) :
    (initFields schema base_fields).lookup "solr_collection"
      = some (bindField schema "solr_collection" defaultField)
    ∧ (initFields schema base_fields).lookup "solr_update_timestamp"
      = some (bindField schema "solr_update_timestamp" defaultField)
    ∧ ∀ n, n ≠ "solr_collection" → n ≠ "solr_update_timestamp" →
        (initFields schema base_fields).lookup n
          = (base_fields.lookup n).map (fun f => bindField schema n f) := by
  unfold initFields initFieldDict
  refine ⟨?_, ?_, ?_⟩
  · rw [lookup_map_bindField,
      dictInsert_lookup_ne "solr_update_timestamp" "solr_collection" defaultField
        (by decide),
      dictInsert_lookup_self]
    rfl
  · rw [lookup_map_bindField, dictInsert_lookup_self]
    rfl
  · intro n h1 h2
    rw [lookup_map_bindField, dictInsert_lookup_ne _ _ _ h2,
      dictInsert_lookup_ne _ _ _ h1]

/-- C10 witness: on declarations that include a user field named
`solr_collection`, the built-in descriptor replaces it, and the unrelated
`title` declaration is bound as declared. -/
theorem C10_builtin_fields_witness :
    (initFields staticSchema clashFields).lookup "solr_collection"
      = some (bindField staticSchema "solr_collection" defaultField)
    ∧ (initFields staticSchema clashFields).lookup "title"
      = ((clashFields.lookup "title").map (fun f => bindField staticSchema "title" f)) :=
  ⟨(C10_builtin_fields staticSchema clashFields).1,
   (C10_builtin_fields staticSchema clashFields).2.2 "title" (by decide) (by decide)⟩


/-- C5: for a field whose dotted attribute path fully resolves on the
record (each segment found, no null intermediate), the transformed document
maps the field's name to the traversal's value (src lines 82-96), provided
no other bound field writes that name. -/
theorem C5_attribute_path (idx : Indexer) (now : Int) (record : PyVal)
    (pre post : List (String × BoundField)) (fn : String) (f : BoundField)
    (path : String) (v : PyVal) (doc : List (String × PyVal))
    (hsplit : idx.fields = pre ++ (fn, f) :: post)
    (hattr : f.attributePath = some path)
    (hres : resolveSegs record (splitOnDots path) = Except.ok v)
    (hpre : ∀ fn2 f2, (fn2, f2) ∈ pre → FieldAvoids idx now record fn fn2 f2)
    (hpost : ∀ fn2 f2, (fn2, f2) ∈ post → FieldAvoids idx now record fn fn2 f2)
    (hok : transform idx now record = Except.ok doc) :
    doc.lookup fn = some v := by
  unfold transform at hok
  rw [hsplit] at hok
  exact runFields_write idx now record fn v pre fn f post [] doc hok hpre hpost
    (transformField_attr_ok idx now record fn f path v hattr hres)

/-- C5 witness: `title` bound to path `name` resolves `.name` of the
record. -/
theorem C5_attribute_path_witness :
    transform soloTitleIndexer 11 (namedRecord "r1")
      = Except.ok [("title", PyVal.pystr "r1")]
    ∧ ([("title", PyVal.pystr "r1")] : List (String × PyVal)).lookup "title"
      = some (PyVal.pystr "r1") := by
  refine ⟨by rfl, ?_⟩
  exact C5_attribute_path soloTitleIndexer 11 (namedRecord "r1") [] [] "title"
    (bindField staticSchema "title" { attributePath := some "name", optional := false })
    "name" (PyVal.pystr "r1") [("title", PyVal.pystr "r1")]
    (by rfl) (by rfl) (by rfl)
    (by intro fn2 f2 h; cases h)
    (by intro fn2 f2 h; cases h)
    (by rfl)

/-- C6: when a field's attribute-path traversal raises `AttributeError`
(null or absent intermediate, src lines 83-91): if the field is optional
the transform succeeds with the field's name absent from the document (not
null-valued); if it is not optional the whole transform fails and no
document is produced for the record. -/
theorem C6_missing_attribute (idx : Indexer) (now : Int) (record : PyVal)
    (fn : String) (f : BoundField) (path : String) (e : AttrError)
    (hattr : f.attributePath = some path)
    (hfail : resolveSegs record (splitOnDots path) = Except.error e) :
    (∀ pre post doc, idx.fields = pre ++ (fn, f) :: post →
        f.optional = true →
        (∀ fn2 f2, (fn2, f2) ∈ pre → FieldAvoids idx now record fn fn2 f2) →
        (∀ fn2 f2, (fn2, f2) ∈ post → FieldAvoids idx now record fn fn2 f2) →
        transform idx now record = Except.ok doc →
        doc.lookup fn = Option.none)
    ∧ ((fn, f) ∈ idx.fields → f.optional = false →
        isAttrFailure (transform idx now record) = true) := by
  have htf := transformField_attr_err idx now record fn f path e hattr hfail
  constructor
  · intro pre post doc hsplit hopt hpre hpost hok
    unfold transform at hok
    rw [hsplit] at hok
    have h := runFields_skip idx now record fn pre fn f post [] doc hok hpre hpost
      (by rw [htf]; rfl) hopt
    rw [h]
    rfl
  · intro hmem hopt
    unfold transform
    exact runFields_err idx now record idx.fields [] fn f hmem (by rw [htf]; rfl) hopt

/-- C6 witness: on a record with no attributes, the optional `title` field
is omitted (empty document, no null entry) while the required variant
aborts the transform with `AttributeError`. -/
theorem C6_missing_attribute_witness :
    transform soloOptionalIndexer 0 bareRecord = Except.ok []
    ∧ (([] : List (String × PyVal)).lookup "title" = Option.none)
    ∧ isAttrFailure (transform soloTitleIndexer 0 bareRecord) = true := by
  refine ⟨by rfl, ?_, ?_⟩
  · exact (C6_missing_attribute soloOptionalIndexer 0 bareRecord "title"
      (bindField staticSchema "title" { attributePath := some "name", optional := true })
      "name" ⟨"name"⟩ (by rfl) (by rfl)).1 [] [] [] (by rfl) (by rfl)
      (by intro a b h; cases h) (by intro a b h; cases h) (by rfl)
  · exact (C6_missing_attribute soloTitleIndexer 0 bareRecord "title"
      (bindField staticSchema "title" { attributePath := some "name", optional := false })
      "name" ⟨"name"⟩ (by rfl) (by rfl)).2
      (List.mem_singleton.mpr (by rfl)) (by rfl)

/-- C7: a dynamic field named with the `_1_TO_X` marker expands the mapping
returned by its base-name resolver into one output entry per sub-key
(src lines 72-75): with resolver result `a: 1, b: 2` the entries are
`title_a` and `title_b` with those values, and the document holds exactly
those two `title`-rooted entries - none under the base name `title` (nor
under the declared name `title_1_TO_X`). -/
theorem C7_one_to_many_expansion (idx : Indexer) (now : Int) (record : PyVal)
    (f : BoundField) (g : PyVal → Except AttrError PyVal)
    (hattr : f.attributePath = Option.none) (hdyn : f.solr_dynamic = true)
    (hres : idx.resolvers "transform_title" = some g)
    (hg : g record
      = Except.ok (PyVal.pydict [("a", PyVal.pyint 1), ("b", PyVal.pyint 2)])) :
    transformField idx now record "title_1_TO_X" f
      = Except.ok [("title_a", PyVal.pyint 1), ("title_b", PyVal.pyint 2)]
    ∧ transform oneToManyIndexer 99 (namedRecord "r1")
      = Except.ok [("title_a", PyVal.pyint 1), ("title_b", PyVal.pyint 2),
          ("solr_collection", PyVal.pystr "widgets"),
          ("solr_update_timestamp", PyVal.pyint 99)]
    ∧ ([("title_a", PyVal.pyint 1), ("title_b", PyVal.pyint 2),
          ("solr_collection", PyVal.pystr "widgets"),
          ("solr_update_timestamp", PyVal.pyint 99)]
        : List (String × PyVal)).lookup "title" = Option.none
    ∧ ([("title_a", PyVal.pyint 1), ("title_b", PyVal.pyint 2),
          ("solr_collection", PyVal.pystr "widgets"),
          ("solr_update_timestamp", PyVal.pyint 99)]
        : List (String × PyVal)).lookup "title_1_TO_X" = Option.none
    ∧ (([("title_a", PyVal.pyint 1), ("title_b", PyVal.pyint 2),
          ("solr_collection", PyVal.pystr "widgets"),
          ("solr_update_timestamp", PyVal.pyint 99)]
        : List (String × PyVal)).filter
          (fun p => strStartsWith p.1 "title")).length = 2 := by
  refine ⟨?_, by rfl, by rfl, by rfl, by rfl⟩
  have hn : ("transform_" ++ strReplace (strReplace "title_1_TO_X" "_1_TO_X" "%s") "%s" ""
      : String) = "transform_title" := by rfl
  have hr : getResolver idx now
      ("transform_" ++ strReplace (strReplace "title_1_TO_X" "_1_TO_X" "%s") "%s" "")
      = some g := by
    rw [hn]
    unfold getResolver
    rw [hres]
  have h := transformField_one_to_many_ok idx now record "title_1_TO_X" f g
    [("a", PyVal.pyint 1), ("b", PyVal.pyint 2)] hattr hdyn (by rfl) hr hg
  rw [h]
  rfl

/-- C7 witness: the expansion at the concrete one-to-many indexer. -/
theorem C7_one_to_many_expansion_witness :
    transformField oneToManyIndexer 99 (namedRecord "r1") "title_1_TO_X"
      (bindField oneToManySchema "title_1_TO_X"
        { attributePath := Option.none, optional := false })
      = Except.ok [("title_a", PyVal.pyint 1), ("title_b", PyVal.pyint 2)] :=
  (C7_one_to_many_expansion oneToManyIndexer 99 (namedRecord "r1")
    (bindField oneToManySchema "title_1_TO_X"
      { attributePath := Option.none, optional := false })
    (fun _ => Except.ok (PyVal.pydict [("a", PyVal.pyint 1), ("b", PyVal.pyint 2)]))
    (by rfl) (by rfl) (by rfl) (by rfl)).1

/-- C8: every transformed document's `solr_collection` equals the bound
configuration's collection identifier (src lines 98-99), and across two
sequential transforms of one run at clock readings `now1 ≤ now2` (the
non-decreasing-clock assumption) the `solr_update_timestamp` values are
exactly those readings, hence non-decreasing (src lines 101-102).  The
split hypotheses locate the two built-in fields in the bound field set and
say no other field writes their names - which holds for the field set
`BaseIndexer.__init__` builds, the built-ins being installed last. -/
theorem C8_builtin_values (idx : Indexer) (now1 now2 : Int) (rec1 rec2 : PyVal)
    (doc1 doc2 : List (String × PyVal))
    (pre1 post1 pre2 post2 : List (String × BoundField)) (fc ft : BoundField)
    (hsplit1 : idx.fields = pre1 ++ ("solr_collection", fc) :: post1)
    (hc1 : fc.attributePath = Option.none) (hc2 : fc.solr_dynamic = false)
    (hresc : idx.resolvers "transform_solr_collection" = Option.none)
    (hpre1 : ∀ fn f, (fn, f) ∈ pre1 → FieldAlwaysAvoids idx "solr_collection" fn f)
    (hpost1 : ∀ fn f, (fn, f) ∈ post1 → FieldAlwaysAvoids idx "solr_collection" fn f)
    (hsplit2 : idx.fields = pre2 ++ ("solr_update_timestamp", ft) :: post2)
    (ht1 : ft.attributePath = Option.none) (ht2 : ft.solr_dynamic = false)
    (hrest : idx.resolvers "transform_solr_update_timestamp" = Option.none)
    (hpre2 : ∀ fn f, (fn, f) ∈ pre2 → FieldAlwaysAvoids idx "solr_update_timestamp" fn f)
    (hpost2 : ∀ fn f, (fn, f) ∈ post2 → FieldAlwaysAvoids idx "solr_update_timestamp" fn f)
    (hmono : now1 ≤ now2)
    (h1 : transform idx now1 rec1 = Except.ok doc1)
    (h2 : transform idx now2 rec2 = Except.ok doc2) :
    doc1.lookup "solr_collection" = some (PyVal.pystr idx.collection)
    ∧ doc2.lookup "solr_collection" = some (PyVal.pystr idx.collection)
    ∧ doc1.lookup "solr_update_timestamp" = some (PyVal.pyint now1)
    ∧ doc2.lookup "solr_update_timestamp" = some (PyVal.pyint now2)
    ∧ now1 ≤ now2 := by
  unfold transform at h1 h2
  have e1c := h1
  rw [hsplit1] at e1c
  have e2c := h2
  rw [hsplit1] at e2c
  have e1t := h1
  rw [hsplit2] at e1t
  have e2t := h2
  rw [hsplit2] at e2t
  refine ⟨?_, ?_, ?_, ?_, hmono⟩
  · exact runFields_write idx now1 rec1 "solr_collection" (PyVal.pystr idx.collection)
      pre1 "solr_collection" fc post1 [] doc1 e1c
      (fun fn f h => hpre1 fn f h now1 rec1) (fun fn f h => hpost1 fn f h now1 rec1)
      (transformField_solr_collection idx now1 rec1 fc hc1 hc2 hresc)
  · exact runFields_write idx now2 rec2 "solr_collection" (PyVal.pystr idx.collection)
      pre1 "solr_collection" fc post1 [] doc2 e2c
      (fun fn f h => hpre1 fn f h now2 rec2) (fun fn f h => hpost1 fn f h now2 rec2)
      (transformField_solr_collection idx now2 rec2 fc hc1 hc2 hresc)
  · exact runFields_write idx now1 rec1 "solr_update_timestamp" (PyVal.pyint now1)
      pre2 "solr_update_timestamp" ft post2 [] doc1 e1t
      (fun fn f h => hpre2 fn f h now1 rec1) (fun fn f h => hpost2 fn f h now1 rec1)
      (transformField_solr_update_timestamp idx now1 rec1 ft ht1 ht2 hrest)
  · exact runFields_write idx now2 rec2 "solr_update_timestamp" (PyVal.pyint now2)
      pre2 "solr_update_timestamp" ft post2 [] doc2 e2t
      (fun fn f h => hpre2 fn f h now2 rec2) (fun fn f h => hpost2 fn f h now2 rec2)
      (transformField_solr_update_timestamp idx now2 rec2 ft ht1 ht2 hrest)

/-- C8 witness: two sequential transforms of the "widgets" indexer at clock
readings 11 and 12. -/
theorem C8_builtin_values_witness :
    transform (titleIndexer 2 10) 11 (namedRecord "r1")
      = Except.ok [("title", PyVal.pystr "r1"),
          ("solr_collection", PyVal.pystr "widgets"),
          ("solr_update_timestamp", PyVal.pyint 11)]
    ∧ transform (titleIndexer 2 10) 12 (namedRecord "r2")
      = Except.ok [("title", PyVal.pystr "r2"),
          ("solr_collection", PyVal.pystr "widgets"),
          ("solr_update_timestamp", PyVal.pyint 12)]
    ∧ ([("title", PyVal.pystr "r1"), ("solr_collection", PyVal.pystr "widgets"),
          ("solr_update_timestamp", PyVal.pyint 11)]
        : List (String × PyVal)).lookup "solr_collection"
      = some (PyVal.pystr (titleIndexer 2 10).collection)
    ∧ ([("title", PyVal.pystr "r1"), ("solr_collection", PyVal.pystr "widgets"),
          ("solr_update_timestamp", PyVal.pyint 11)]
        : List (String × PyVal)).lookup "solr_update_timestamp"
      = some (PyVal.pyint 11)
    ∧ ([("title", PyVal.pystr "r2"), ("solr_collection", PyVal.pystr "widgets"),
          ("solr_update_timestamp", PyVal.pyint 12)]
        : List (String × PyVal)).lookup "solr_update_timestamp"
      = some (PyVal.pyint 12) := by
  have havoid1 : ∀ fn f,
      (fn, f) ∈ [("title", bindField staticSchema "title"
          { attributePath := some "name", optional := false })] →
      FieldAlwaysAvoids (titleIndexer 2 10) "solr_collection" fn f := by
    intro fn f h
    simp only [List.mem_singleton, Prod.mk.injEq] at h
    obtain ⟨rfl, rfl⟩ := h
    exact fieldAlwaysAvoids_of_static (titleIndexer 2 10) "solr_collection" "title" _
      (Or.inl (by decide)) (by decide)
  have havoid2 : ∀ fn f,
      (fn, f) ∈ [("solr_update_timestamp",
          bindField staticSchema "solr_update_timestamp" defaultField)] →
      FieldAlwaysAvoids (titleIndexer 2 10) "solr_collection" fn f := by
    intro fn f h
    simp only [List.mem_singleton, Prod.mk.injEq] at h
    obtain ⟨rfl, rfl⟩ := h
    exact fieldAlwaysAvoids_of_static (titleIndexer 2 10) "solr_collection"
      "solr_update_timestamp" _ (Or.inr (Or.inl (by decide))) (by decide)
  have havoid3 : ∀ fn f,
      (fn, f) ∈ [("title", bindField staticSchema "title"
            { attributePath := some "name", optional := false }),
          ("solr_collection", bindField staticSchema "solr_collection" defaultField)] →
      FieldAlwaysAvoids (titleIndexer 2 10) "solr_update_timestamp" fn f := by
    intro fn f h
    simp only [List.mem_cons, List.mem_singleton, List.mem_nil_iff, or_false, Prod.mk.injEq] at h
    rcases h with ⟨rfl, rfl⟩ | ⟨rfl, rfl⟩
    · exact fieldAlwaysAvoids_of_static (titleIndexer 2 10) "solr_update_timestamp"
        "title" _ (Or.inl (by decide)) (by decide)
    · exact fieldAlwaysAvoids_of_static (titleIndexer 2 10) "solr_update_timestamp"
        "solr_collection" _ (Or.inr (Or.inl (by decide))) (by decide)
  obtain ⟨g1, g2, g3, g4, _⟩ := C8_builtin_values (titleIndexer 2 10) 11 12
    (namedRecord "r1") (namedRecord "r2")
    [("title", PyVal.pystr "r1"), ("solr_collection", PyVal.pystr "widgets"),
      ("solr_update_timestamp", PyVal.pyint 11)]
    [("title", PyVal.pystr "r2"), ("solr_collection", PyVal.pystr "widgets"),
      ("solr_update_timestamp", PyVal.pyint 12)]
    [("title", bindField staticSchema "title"
        { attributePath := some "name", optional := false })]
    [("solr_update_timestamp", bindField staticSchema "solr_update_timestamp" defaultField)]
    [("title", bindField staticSchema "title"
        { attributePath := some "name", optional := false }),
      ("solr_collection", bindField staticSchema "solr_collection" defaultField)]
    []
    (bindField staticSchema "solr_collection" defaultField)
    (bindField staticSchema "solr_update_timestamp" defaultField)
    (by rfl) (by rfl) (by rfl) (by rfl)
    havoid1 havoid2
    (by rfl) (by rfl) (by rfl) (by rfl)
    havoid3 (by intro fn f h; exact (List.not_mem_nil _ h).elim)
    (by decide) (by rfl) (by rfl)
  exact ⟨by rfl, by rfl, g1, g3, g4⟩

/-- C9: assuming a non-decreasing clock, a document transformed during the
run (clock reading `now` at or after the watermark captured at construction,
src line 51) carries `solr_update_timestamp = now ≥ T0` and therefore does
not match the sweep's delete filter `solr_update_timestamp < T0`
(src lines 132-133). -/
theorem C9_upload_survives_sweep (idx : Indexer) (now : Int) (record : PyVal)
    (doc : List (String × PyVal))
    (pre post : List (String × BoundField)) (ft : BoundField)
    (hsplit : idx.fields = pre ++ ("solr_update_timestamp", ft) :: post)
    (ht1 : ft.attributePath = Option.none) (ht2 : ft.solr_dynamic = false)
    (hrest : idx.resolvers "transform_solr_update_timestamp" = Option.none)
    (hpre : ∀ fn f, (fn, f) ∈ pre → FieldAvoids idx now record "solr_update_timestamp" fn f)
    (hpost : ∀ fn f, (fn, f) ∈ post → FieldAvoids idx now record "solr_update_timestamp" fn f)
    (hclock : idx.solr_update_timestamp ≤ now)
    (hok : transform idx now record = Except.ok doc) :
    doc.lookup "solr_update_timestamp" = some (PyVal.pyint now)
    ∧ (deleteQueryOf idx).matchesDoc doc = false := by
  have hts : doc.lookup "solr_update_timestamp" = some (PyVal.pyint now) := by
    unfold transform at hok
    rw [hsplit] at hok
    exact runFields_write idx now record "solr_update_timestamp" (PyVal.pyint now)
      pre "solr_update_timestamp" ft post [] doc hok hpre hpost
      (transformField_solr_update_timestamp idx now record ft ht1 ht2 hrest)
  refine ⟨hts, ?_⟩
  unfold DeleteQuery.matchesDoc
  rw [hts]
  cases hc : doc.lookup "solr_collection" with
  | none => rfl
  | some v =>
      cases v with
      | pynone => rfl
      | pyint n => rfl
      | pyobj l => rfl
      | pydict l => rfl
      | pystr c =>
          show (deleteQueryOf idx).matches c now = false
          simp [DeleteQuery.matches, deleteQueryOf, not_lt.mpr hclock]

/-- C9 witness: the document transformed at clock reading 11 survives the
filter anchored at watermark 10. -/
theorem C9_upload_survives_sweep_witness :
    ([("title", PyVal.pystr "r1"), ("solr_collection", PyVal.pystr "widgets"),
        ("solr_update_timestamp", PyVal.pyint 11)]
      : List (String × PyVal)).lookup "solr_update_timestamp"
      = some (PyVal.pyint 11)
    ∧ (deleteQueryOf (titleIndexer 2 10)).matchesDoc
        [("title", PyVal.pystr "r1"), ("solr_collection", PyVal.pystr "widgets"),
          ("solr_update_timestamp", PyVal.pyint 11)] = false := by
  have havoid : ∀ fn f,
      (fn, f) ∈ [("title", bindField staticSchema "title"
            { attributePath := some "name", optional := false }),
          ("solr_collection", bindField staticSchema "solr_collection" defaultField)] →
      FieldAvoids (titleIndexer 2 10) 11 (namedRecord "r1") "solr_update_timestamp" fn f := by
    intro fn f h
    simp only [List.mem_cons, List.mem_singleton, List.mem_nil_iff, or_false, Prod.mk.injEq] at h
    rcases h with ⟨rfl, rfl⟩ | ⟨rfl, rfl⟩
    · exact fieldAlwaysAvoids_of_static (titleIndexer 2 10) "solr_update_timestamp"
        "title" _ (Or.inl (by decide)) (by decide) 11 (namedRecord "r1")
    · exact fieldAlwaysAvoids_of_static (titleIndexer 2 10) "solr_update_timestamp"
        "solr_collection" _ (Or.inr (Or.inl (by decide))) (by decide) 11 (namedRecord "r1")
  exact C9_upload_survives_sweep (titleIndexer 2 10) 11 (namedRecord "r1")
    [("title", PyVal.pystr "r1"), ("solr_collection", PyVal.pystr "widgets"),
      ("solr_update_timestamp", PyVal.pyint 11)]
    [("title", bindField staticSchema "title"
        { attributePath := some "name", optional := false }),
      ("solr_collection", bindField staticSchema "solr_collection" defaultField)]
    []
    (bindField staticSchema "solr_update_timestamp" defaultField)
    (by rfl) (by rfl) (by rfl) (by rfl)
    havoid (by intro fn f h; exact (List.not_mem_nil _ h).elim)
    (by decide) (by rfl)

end Sunburnt
